import Mathlib

/-!
Verification of the zest authentication flow against its specification.

This file gives a shallow embedding of the core of the repository:
the ACR (Authentication Context Reference) string builder
(src/services/applicationService.ts, getAcrValues), the error-code
extractors (src/utils/errorHandling.ts), the pending-session storage
helpers, the recovery engine with its circuit breaker, and the
mobile-submit / OTP-retry fragments of the flow orchestrator.
Each definition mirrors one source function; theorems at the end of the
file settle the specification claims about them.
-/

namespace ZestAuth

/-! ## Data model (src/types/contracts.ts) -/

/-- Mirror of the Authentication class of src/types/contracts.ts.
All fields are strings defaulting to empty, as in the source. -/
structure Authentication where
  MobileNumber : String := ""
  Email : String := ""
  TypoCorrectedEmail : Option String := none
  Password : String := ""
  ConfirmPassword : String := ""
  Otp : String := ""
  OtpId : String := ""
  ShowMfaChallenge : Bool := false
deriving DecidableEq, Repr

/-- Mirror of the AcrValues class of src/types/contracts.ts.
The loginContext field is a number in the source; JavaScript truthiness
of a number is being nonzero, so it is modelled as Nat. -/
structure AcrValues where
  loanApplicationId : String
  merchantId : String
  encryptedMerchantId : String
  MerchantCustomerId : String
  loginContext : Nat
  qType : String := ""
  qValue : String := ""
deriving DecidableEq, Repr

/-- JavaScript Boolean.prototype.toString. -/
def boolStr (b : Bool) : String :=
  if b then "true" else "false"

/-! ## ACR builder (src/services/applicationService.ts, getAcrValues)

The source builds the string by successive conditional appends; each
let-binding below mirrors one append statement, in source order.
JavaScript truthiness of a string is being nonempty, of a number being
nonzero; the redundant null checks on the non-nullable parameters are
dropped. -/

/-- Mirror of getAcrValues of src/services/applicationService.ts. -/
def getAcrValues (acrValues : AcrValues) (isOtp isSignup isTruecaller : Bool)
    (authentication : Authentication) (version : String) : String :=
  let isOtp := if isTruecaller then false else isOtp
  let acrString := "isOtp:" ++ boolStr isOtp
  let acrString :=
    if version ≠ "2" then
      if isSignup then acrString ++ "&isSignup:true&isLogin:false"
      else acrString ++ "&isSignup:false&isLogin:true"
    else acrString
  let acrString := acrString ++ "&isTruecaller:" ++ boolStr isTruecaller
  let acrString :=
    if (((isOtp || isTruecaller) && !isSignup) || isSignup)
        && authentication.MobileNumber.length > 0 then
      acrString ++ "&mobile:" ++ "91" ++ authentication.MobileNumber
    else acrString
  let acrString :=
    if ((!isOtp && !isTruecaller && !isSignup) || isSignup)
        && authentication.Email.length > 0 then
      acrString ++ "&email:" ++ authentication.Email
    else acrString
  let acrString :=
    if acrValues.loginContext ≠ 0 then
      acrString ++ "&loginContext:" ++ toString acrValues.loginContext
    else acrString
  let acrString :=
    if isOtp && authentication.OtpId.length > 0 then
      acrString ++ "&otpId:" ++ authentication.OtpId
    else acrString
  let acrString :=
    if acrValues.loanApplicationId ≠ "" then
      acrString ++ "&loanApplicationId:" ++ acrValues.loanApplicationId
    else acrString
  let acrString :=
    if acrValues.merchantId ≠ "" then
      acrString ++ "&merchantId:" ++ acrValues.merchantId
    else acrString
  let acrString :=
    if acrValues.encryptedMerchantId ≠ "" then
      acrString ++ "&encryptedMerchantId:" ++ acrValues.encryptedMerchantId
    else acrString
  let acrString :=
    if acrValues.MerchantCustomerId ≠ "" then
      acrString ++ "&MerchantCustomerId:" ++ acrValues.MerchantCustomerId
    else acrString
  let acrString :=
    if version = "2" then acrString ++ "&version:" ++ version else acrString
  let acrString :=
    if acrValues.qType ≠ "" && acrValues.qValue ≠ "" then
      acrString ++ "&qType:" ++ acrValues.qType ++ "&qValue:" ++ acrValues.qValue
    else acrString
  acrString

/-! ### Field-level view of the ACR string

The builder appends key:value fields joined by ampersands. To reason
about field order and field presence we restate the built string as an
explicit ordered list of (key, value) pairs with exactly the source's
gating conditions, in exactly the source's order, and prove below that
rendering this list reproduces getAcrValues verbatim. -/

/-- Ordered key-value decomposition of the ACR string, with the gates of
getAcrValues, in the append order of the source. -/
def acrFields (acrValues : AcrValues) (isOtp isSignup isTruecaller : Bool)
    (authentication : Authentication) (version : String) : List (String × String) :=
  let isOtp := if isTruecaller then false else isOtp
  ("isOtp", boolStr isOtp)
    :: ((if version ≠ "2" then
          if isSignup then [("isSignup", "true"), ("isLogin", "false")]
          else [("isSignup", "false"), ("isLogin", "true")]
        else [])
      ++ [("isTruecaller", boolStr isTruecaller)]
      ++ (if (((isOtp || isTruecaller) && !isSignup) || isSignup)
            && authentication.MobileNumber.length > 0 then
          [("mobile", "91" ++ authentication.MobileNumber)]
        else [])
      ++ (if ((!isOtp && !isTruecaller && !isSignup) || isSignup)
            && authentication.Email.length > 0 then
          [("email", authentication.Email)]
        else [])
      ++ (if acrValues.loginContext ≠ 0 then
          [("loginContext", toString acrValues.loginContext)]
        else [])
      ++ (if isOtp && authentication.OtpId.length > 0 then
          [("otpId", authentication.OtpId)]
        else [])
      ++ (if acrValues.loanApplicationId ≠ "" then
          [("loanApplicationId", acrValues.loanApplicationId)]
        else [])
      ++ (if acrValues.merchantId ≠ "" then
          [("merchantId", acrValues.merchantId)]
        else [])
      ++ (if acrValues.encryptedMerchantId ≠ "" then
          [("encryptedMerchantId", acrValues.encryptedMerchantId)]
        else [])
      ++ (if acrValues.MerchantCustomerId ≠ "" then
          [("MerchantCustomerId", acrValues.MerchantCustomerId)]
        else [])
      ++ (if version = "2" then [("version", version)] else [])
      ++ (if acrValues.qType ≠ "" && acrValues.qValue ≠ "" then
          [("qType", acrValues.qType), ("qValue", acrValues.qValue)]
        else []))

/-- Render a key-value field list in the wire format of the ACR string:
key:value pairs joined by ampersands. -/
def renderAcrFields (l : List (String × String)) : String :=
  String.intercalate "&" (l.map fun p => p.1 ++ ":" ++ p.2)

/-- Append a list of key-value fields to an already rendered prefix, one
ampersand-separated field at a time. -/
def acrAppend (init : String) (l : List (String × String)) : String :=
  l.foldl (fun acc p => acc ++ "&" ++ p.1 ++ ":" ++ p.2) init

/-- Modelled from the claim text of the specification (not from the
source): the ACR builder with the field order the specification asserts,
namely otpId directly after email, and loginContext after
MerchantCustomerId. Used only to refute the stated order. -/
def getAcrValuesSpecOrder (acrValues : AcrValues) (isOtp isSignup isTruecaller : Bool)
    (authentication : Authentication) (version : String) : String :=
  let isOtp := if isTruecaller then false else isOtp
  let acrString := "isOtp:" ++ boolStr isOtp
  let acrString :=
    if version ≠ "2" then
      if isSignup then acrString ++ "&isSignup:true&isLogin:false"
      else acrString ++ "&isSignup:false&isLogin:true"
    else acrString
  let acrString := acrString ++ "&isTruecaller:" ++ boolStr isTruecaller
  let acrString :=
    if (((isOtp || isTruecaller) && !isSignup) || isSignup)
        && authentication.MobileNumber.length > 0 then
      acrString ++ "&mobile:" ++ "91" ++ authentication.MobileNumber
    else acrString
  let acrString :=
    if ((!isOtp && !isTruecaller && !isSignup) || isSignup)
        && authentication.Email.length > 0 then
      acrString ++ "&email:" ++ authentication.Email
    else acrString
  let acrString :=
    if isOtp && authentication.OtpId.length > 0 then
      acrString ++ "&otpId:" ++ authentication.OtpId
    else acrString
  let acrString :=
    if acrValues.loanApplicationId ≠ "" then
      acrString ++ "&loanApplicationId:" ++ acrValues.loanApplicationId
    else acrString
  let acrString :=
    if acrValues.merchantId ≠ "" then
      acrString ++ "&merchantId:" ++ acrValues.merchantId
    else acrString
  let acrString :=
    if acrValues.encryptedMerchantId ≠ "" then
      acrString ++ "&encryptedMerchantId:" ++ acrValues.encryptedMerchantId
    else acrString
  let acrString :=
    if acrValues.MerchantCustomerId ≠ "" then
      acrString ++ "&MerchantCustomerId:" ++ acrValues.MerchantCustomerId
    else acrString
  let acrString :=
    if acrValues.loginContext ≠ 0 then
      acrString ++ "&loginContext:" ++ toString acrValues.loginContext
    else acrString
  let acrString :=
    if version = "2" then acrString ++ "&version:" ++ version else acrString
  let acrString :=
    if acrValues.qType ≠ "" && acrValues.qValue ≠ "" then
      acrString ++ "&qType:" ++ acrValues.qType ++ "&qValue:" ++ acrValues.qValue
    else acrString
  acrString

/-! ## Pending session storage (src/unnamed/part_011 and part_004)

Browser sessionStorage under the authentication key is modelled as
Option (Option AuthSessionRecord): none is no stored string (or the
falsy empty string), some none is a stored string that JSON.parse
rejects, and some (some r) is a stored string parsing to the record r.
Times are epoch milliseconds. -/

/-- Mirror of AuthenticationSessionStorageProperties of part_011. The
auth field reuses the Authentication structure, whose fields match the
interface. -/
structure AuthSessionRecord where
  auth : Authentication
  waOpted : Bool
  issuedAt : Int
deriving DecidableEq, Repr

/-- Mirror of isValidAuthSessionStorage of part_011: false when nothing
is stored, false when the stored string fails to parse, else a freshness
check of five minutes against the stored issuedAt. -/
def isValidAuthSessionStorage (stored : Option (Option AuthSessionRecord)) (now : Int) : Bool :=
  match stored with
  | none => false
  | some none => false
  | some (some authSession) => now - authSession.issuedAt < 60000 * 5

/-- Mirror of setAuthSessionStorage of part_004: stamps issuedAt with the
current time, except that when reuseIssuedAt is requested and a stored
record exists its issuedAt (and auth) are kept; if the stored string
fails to parse the exception is swallowed and storage is left as it was.
The function is total: a save never throws. -/
def setAuthSessionStorage (stored : Option (Option AuthSessionRecord))
    (authentication : Authentication) (waOpted : Bool) (now : Int)
    (reuseIssuedAt : Bool) : Option (Option AuthSessionRecord) :=
  match reuseIssuedAt, stored with
  | true, some (some token) =>
      some (some { auth := token.auth, waOpted := waOpted, issuedAt := token.issuedAt })
  | true, some none => some none
  | _, _ => some (some { auth := authentication, waOpted := waOpted, issuedAt := now })

/-! ## Mobile-number submission (EnterMobileNumberV3 and part_004)

The component validates with the regular expression ([5-9])\d{9} via an
unanchored test; the orchestrator gate in setMobileNumber and
callGenerateOtp requires exactly ten characters matching ^[0-9]+$. -/

/-- Character class [0-9]. -/
def isDigitCh (c : Char) : Bool :=
  '0' ≤ c && c ≤ '9'

/-- Match of ([5-9])\d{9} starting at the head of the character list. -/
def mobileRunAt (l : List Char) : Bool :=
  match l with
  | [] => false
  | c :: rest => ('5' ≤ c && c ≤ '9') && ((rest.take 9).length == 9 && (rest.take 9).all isDigitCh)

/-- Unanchored test of ([5-9])\d{9}, as RegExp.prototype.test performs in
the component: a match may start at any position. -/
def regexTestMobileV3 (s : String) : Bool :=
  s.data.tails.any mobileRunAt

/-- Match of ^[0-9]+$ (the match call in setMobileNumber and
callGenerateOtp of part_004). -/
def jsMatchAllDigits (s : String) : Bool :=
  !s.data.isEmpty && s.data.all isDigitCh

/-- Full (anchored) match of [5-9]\d{9}: the claim reading of a valid
ten-digit mobile number. -/
def fullMobileMatch (s : String) : Bool :=
  match s.data with
  | [] => false
  | c :: rest => ('5' ≤ c && c ≤ '9') && (rest.length == 9 && rest.all isDigitCh)

/-- MessageParams of the OTP trigger payload: absent, MerchantId, or
MerchantKey (triggerOtpViaSmsV2 of src/services/applicationService.ts). -/
inductive OtpMessageParams where
  | noParams
  | merchantIdParam (MerchantId : String)
  | merchantKeyParam (MerchantKey : String)
deriving DecidableEq, Repr

/-- Payload of triggerOtpViaSmsV2: a 91-prefixed MobileNumber plus
optional merchant routing. This request carries no ACR string and no
isOtp or isSignup flag. -/
structure TriggerOtpRequest where
  MobileNumber : String
  params : OtpMessageParams
deriving DecidableEq, Repr

/-- Mirror of the triggerOtpViaSmsData object built by
triggerOtpViaSmsV2. -/
def triggerOtpViaSmsData (authentication : Authentication)
    (merchantKey merchantId : String) : TriggerOtpRequest :=
  { MobileNumber := "91" ++ authentication.MobileNumber
    params :=
      if merchantId ≠ "" then .merchantIdParam merchantId
      else if merchantKey ≠ "" then .merchantKeyParam merchantKey
      else .noParams }

/-- Top-level JSON keys of the OTP trigger payload. -/
def triggerOtpRequestKeys (r : TriggerOtpRequest) : List String :=
  "MobileNumber" ::
    (match r.params with
     | .noParams => []
     | _ => ["MessageParams"])

/-- Steps of the flow relevant to mobile submission: the mobile entry
form, and the open OTP modal (showOtpForm true in part_004). -/
inductive AuthStep where
  | EnteringMobile
  | AwaitingOtp
deriving DecidableEq, Repr

/-- Synchronous outcome of submitting a mobile number: the component's
submitMobileNumber runs checkError (the unanchored regex test); on
success it hands the entered string to the orchestrator's
setMobileNumber, whose gate (ten characters, all digits) is re-checked
identically by callGenerateOtp before the OTP modal is opened and the
trigger request issued. The result is the issued request, if any, and
the step the flow is in after the submit. -/
def mobileSubmit (entered merchantKey merchantId : String) :
    Option TriggerOtpRequest × AuthStep :=
  if regexTestMobileV3 entered then
    if entered.length == 10 && jsMatchAllDigits entered then
      (some (triggerOtpViaSmsData { MobileNumber := entered } merchantKey merchantId),
        .AwaitingOtp)
    else (none, .EnteringMobile)
  else (none, .EnteringMobile)

/-! ## OTP retry counter (part_004, getTokenUsingAcrValues)

State of the flow fragment that the repeated wrong-OTP scenario
exercises. The session storage content is carried as an opaque optional
string to show that the attempt counter is never persisted. -/

/-- Message text AuthenticationV2ErrorMessages.ZMAUT02 of
src/types/contracts.ts (with a trailing period). -/
def msgIncorrectOtpV2 : String :=
  "Incorrect OTP. Please enter the verification code again."

/-- Literal message set by part_004 once retryOtpAttemts reaches three
(no trailing period). -/
def msgIncorrectOtpAfterRetries : String :=
  "Incorrect OTP. Please enter the verification code again"

/-- Relevant orchestrator state of part_004 around
getTokenUsingAcrValues. -/
structure OtpFlowState where
  showOtpForm : Bool
  retryOtpAttemts : Nat
  showError : Bool
  errorMessage : String
  showEmailOptions : Bool
  sessionStorageValue : Option String
deriving DecidableEq, Repr

/-- One call of getTokenUsingAcrValues of part_004 whose token request
fails with error code ZMAUT02 (OTP incorrect). The callback reads the
render-captured values of retryOtpAttemts and showEmailOptions, so the
final comparison uses the pre-increment counter, exactly as the closure
in the source does. -/
def otpIncorrectStep (st : OtpFlowState) : OtpFlowState :=
  let captured := st.retryOtpAttemts
  let capturedEmailOptions := st.showEmailOptions
  let st1 : OtpFlowState :=
    { st with retryOtpAttemts := st.retryOtpAttemts + 1, showError := false }
  let st2 : OtpFlowState :=
    if capturedEmailOptions then
      { st1 with sessionStorageValue := none, showEmailOptions := false,
                 showError := false, errorMessage := "" }
    else
      { st1 with showError := true, errorMessage := msgIncorrectOtpV2 }
  if !capturedEmailOptions && captured ≥ 3 then
    { st2 with showError := true, errorMessage := msgIncorrectOtpAfterRetries }
  else st2

/-! ## Recovery engine (part_010, ErrorHandlingService)

Maps are modelled as association lists; times are epoch milliseconds. -/

/-- Error categories of the recovery engine (types/errors ErrorType). -/
inductive ErrorType where
  | AUTHENTICATION
  | VALIDATION
  | NETWORK
  | THIRD_PARTY
  | SYSTEM
  | RATE_LIMIT
  | SECURITY
deriving DecidableEq, Repr

/-- AuthError shape: code and message are always present; type,
retryable, statusCode and service are optional. The createError
timestamp is not modelled. -/
structure AuthError where
  code : String
  message : String
  retryable : Option Bool := none
  errType : Option ErrorType := none
  statusCode : Option Int := none
  service : Option String := none
deriving DecidableEq, Repr

/-- Circuit breaker entry per error code. -/
structure CircuitBreakerEntry where
  failures : Nat
  lastFailure : Int
  isOpen : Bool
deriving DecidableEq, Repr

/-- Retry configuration; getRetryConfig always supplies a
backoffMultiplier of 2. -/
structure RetryConfig where
  maxRetries : Nat
  delay : Nat
  exponentialBackoff : Bool
  backoffMultiplier : Nat
deriving DecidableEq, Repr

/-- RETRY_CONFIG of src/unnamed/part_014 (constants/errors); the
multiplier 2 is what getRetryConfig spreads in. -/
def RETRY_CONFIG : List (String × RetryConfig) :=
  [("NET_001", ⟨3, 1000, true, 2⟩),
   ("NET_002", ⟨2, 2000, true, 2⟩),
   ("SYS_001", ⟨2, 5000, true, 2⟩),
   ("SYS_002", ⟨1, 10000, false, 2⟩),
   ("OTP_004", ⟨2, 3000, false, 2⟩),
   ("OTP_005", ⟨2, 5000, false, 2⟩)]

/-- Mirror of getRetryConfig of part_010: table lookup with multiplier 2,
else the default configuration; never null. -/
def getRetryConfig (errorCode : String) : RetryConfig :=
  match RETRY_CONFIG.lookup errorCode with
  | some config => { config with backoffMultiplier := 2 }
  | none => { maxRetries := 2, delay := 1000, exponentialBackoff := true, backoffMultiplier := 2 }

/-- JavaScript String.prototype.startsWith, at the character level. -/
def jsStartsWith (s p : String) : Bool :=
  p.data.isPrefixOf s.data

/-- Mirror of classifyError of part_010 restricted to AuthError-shaped
values (the shape recoverFromError receives): an explicit type wins,
else code-prefix rules, else the network and third-party shape checks,
else SYSTEM. -/
def classifyAuthError (error : AuthError) : ErrorType :=
  match error.errType with
  | some t => t
  | none =>
      if jsStartsWith error.code "AUTH_" || jsStartsWith error.code "OTP_"
          || jsStartsWith error.code "PWD_" then .AUTHENTICATION
      else if jsStartsWith error.code "PHONE_" || jsStartsWith error.code "EMAIL_"
          || jsStartsWith error.code "VAL_" then .VALIDATION
      else if jsStartsWith error.code "NET_" || jsStartsWith error.code "TIMEOUT_" then .NETWORK
      else if jsStartsWith error.code "GOOGLE_" || jsStartsWith error.code "TRUECALLER_"
          || jsStartsWith error.code "FINORAMIC_" then .THIRD_PARTY
      else if jsStartsWith error.code "RATE_" then .RATE_LIMIT
      else if jsStartsWith error.code "SEC_" then .SECURITY
      else if error.statusCode.isSome then .NETWORK
      else if error.service.isSome then .THIRD_PARTY
      else .SYSTEM

/-- Mirror of canRecover of part_010: an explicit retryable flag wins,
else the default recoverability of the classified category. -/
def canRecover (error : AuthError) : Bool :=
  match error.retryable with
  | some b => b
  | none =>
      match classifyAuthError error with
      | .NETWORK => true
      | .RATE_LIMIT => true
      | .SYSTEM => true
      | .THIRD_PARTY => true
      | .AUTHENTICATION => false
      | .VALIDATION => false
      | .SECURITY => false

/-- Mirror of createError of part_010 (timestamp and context omitted). -/
def createError (code message : String) (retryable : Bool) (t : ErrorType) : AuthError :=
  { code := code, message := message, retryable := some retryable, errType := some t }

/-- Association-list update with Map.set semantics: replace in place or
append at the end. -/
def setAssoc {α : Type} : List (String × α) → String → α → List (String × α)
  | [], k, v => [(k, v)]
  | p :: rest, k, v => if p.1 == k then (k, v) :: rest else p :: setAssoc rest k v

/-- Association-list removal with Map.delete semantics. -/
def delAssoc {α : Type} (l : List (String × α)) (k : String) : List (String × α) :=
  l.filter fun p => p.1 != k

/-- Mutable state of ErrorHandlingService: retry attempts per attempt key
and circuit breakers per error code. -/
structure ErrorHandlingState where
  retryAttempts : List (String × Nat) := []
  circuitBreakers : List (String × CircuitBreakerEntry) := []
deriving DecidableEq, Repr

/-- Mirror of isCircuitBreakerOpen of part_010. Returns the answer and
the state, since the check deletes entries whose cooldown has passed. -/
def isCircuitBreakerOpen (st : ErrorHandlingState) (serviceKey : String) (now : Int) :
    Bool × ErrorHandlingState :=
  match st.circuitBreakers.lookup serviceKey with
  | none => (false, st)
  | some breaker =>
      let timeSinceLastFailure := now - breaker.lastFailure
      if breaker.failures ≥ 5 ∧ timeSinceLastFailure < 60000 then (true, st)
      else if timeSinceLastFailure ≥ 60000 then
        (false, { st with circuitBreakers := delAssoc st.circuitBreakers serviceKey })
      else (false, st)

/-- Mirror of recordCircuitBreakerFailure of part_010. -/
def recordCircuitBreakerFailure (st : ErrorHandlingState) (serviceKey : String)
    (now : Int) : ErrorHandlingState :=
  let breaker := (st.circuitBreakers.lookup serviceKey).getD ⟨0, now, false⟩
  let breaker : CircuitBreakerEntry :=
    { failures := breaker.failures + 1, lastFailure := now,
      isOpen := breaker.failures + 1 ≥ 5 }
  { st with circuitBreakers := setAssoc st.circuitBreakers serviceKey breaker }

/-- Outcome of one recoverFromError call: either the promise resolves
after the computed backoff delay, or an error is thrown with no delay. -/
inductive RecoverOutcome where
  | retryAfter (delayMs : Nat)
  | thrown (error : AuthError)
deriving DecidableEq, Repr

/-- Mirror of recoverFromError of part_010. getRetryConfig never returns
null, so the recoverability guard reduces to canRecover. -/
def recoverFromError (st : ErrorHandlingState) (error : AuthError)
    (sessionId : Option String) (now : Int) : RecoverOutcome × ErrorHandlingState :=
  let retryConfig := getRetryConfig error.code
  if ¬ canRecover error then (.thrown error, st)
  else
    match isCircuitBreakerOpen st error.code now with
    | (true, st1) =>
        (.thrown (createError "CIRCUIT_BREAKER_OPEN"
          "Service is temporarily unavailable due to repeated failures" false .SYSTEM), st1)
    | (false, st1) =>
        let attemptKey := error.code ++ "_" ++ sessionId.getD "default"
        let currentAttempts := (st1.retryAttempts.lookup attemptKey).getD 0
        if currentAttempts ≥ retryConfig.maxRetries then
          (.thrown (createError "MAX_RETRIES_EXCEEDED"
            ("Maximum retry attempts (" ++ toString retryConfig.maxRetries ++ ") exceeded")
            false .SYSTEM),
           recordCircuitBreakerFailure st1 error.code now)
        else
          let delay :=
            if retryConfig.exponentialBackoff then
              retryConfig.delay * retryConfig.backoffMultiplier ^ currentAttempts
            else retryConfig.delay
          (.retryAfter delay,
           { st1 with retryAttempts := setAssoc st1.retryAttempts attemptKey (currentAttempts + 1) })

/-! ## Error-code extractors (src/utils/errorHandling.ts and part_011)

Raw backend error payloads are modelled as JavaScript values. The
JSON.stringify and JSON.parse pair of the source is modelled
semantically: stringify is defined (returns a string) for everything but
undefined, its output is never the empty string, and a parse of the
output returns the same value with undefined-valued object fields
dropped. Operations that throw a TypeError in JavaScript return Except
errors, which the catch of each extractor turns into null. -/

/-- JavaScript values reachable through a JSON error payload. -/
inductive JsVal where
  | vNull
  | vUndefined
  | vBool (b : Bool)
  | vNum (n : Int)
  | vStr (s : String)
  | vObj (fields : List (String × JsVal))

/-- JavaScript truthiness. -/
def truthy : JsVal → Bool
  | .vNull => false
  | .vUndefined => false
  | .vBool b => b
  | .vNum n => n != 0
  | .vStr s => s != ""
  | .vObj _ => true

/-- Property access v.k: throws a TypeError on null and undefined,
yields undefined for absent properties and on primitives. -/
def getProp : JsVal → String → Except Unit JsVal
  | .vNull, _ => .error ()
  | .vUndefined, _ => .error ()
  | .vObj fields, k => .ok ((fields.lookup k).getD .vUndefined)
  | _, _ => .ok .vUndefined

/-- JSON.stringify yields a string for every modelled value except
undefined. -/
def stringifyDefined : JsVal → Bool
  | .vUndefined => false
  | _ => true

mutual

/-- Semantic effect of a JSON.stringify and JSON.parse round trip on a
defined value: object fields holding undefined are dropped. -/
def stripUndefined : JsVal → JsVal
  | .vObj fields => .vObj (stripUndefinedFields fields)
  | v => v

/-- Field-list part of stripUndefined. -/
def stripUndefinedFields : List (String × JsVal) → List (String × JsVal)
  | [] => []
  | (k, v) :: rest =>
      match v with
      | .vUndefined => stripUndefinedFields rest
      | v => (k, stripUndefined v) :: stripUndefinedFields rest

end

/-- First index of a character in a string, minus one when absent
(String.prototype.indexOf). -/
def charIdx : List Char → Char → Option Nat
  | [], _ => none
  | d :: rest, c => if d = c then some 0 else (charIdx rest c).map (· + 1)

/-- JavaScript String.prototype.indexOf for a single character. -/
def jsIndexOf (s : String) (c : Char) : Int :=
  match charIdx s.data c with
  | some n => (n : Int)
  | none => -1

/-- JavaScript s.substring(0, e): a negative end is clamped to 0 (and
swapped with the start), an end beyond the length is clamped to the
length. -/
def jsSubstringTo (s : String) (e : Int) : String :=
  ⟨s.data.take (max e 0).toNat⟩

/-- The truthiness-and-length guard on the extracted description. For a
string this is its length; for an object a numeric length property is
consulted (a non-numeric one is treated as failing, which agrees with
the source outcome because the subsequent substring call on a non-string
throws and is caught). -/
def descLengthPositive : JsVal → Bool
  | .vStr s => 0 < s.length
  | .vObj fields =>
      match fields.lookup "length" with
      | some (.vNum n) => 0 < n
      | _ => false
  | _ => false

/-- Shared tail of every extractor: guard the description, cut at the
first pipe, and accept only a nonempty code longer than five characters
whose first five characters are ZMAUT. Calling substring on a non-string
description throws. -/
def extractCode (error_description : JsVal) : Except Unit (Option String) :=
  if truthy error_description && descLengthPositive error_description then
    match error_description with
    | .vStr s =>
        let error_code := jsSubstringTo s (jsIndexOf s '|')
        .ok (if error_code != "" && 5 < error_code.length
              && jsSubstringTo error_code 5 == "ZMAUT"
            then some error_code else none)
    | _ => .error ()
  else .ok none

/-- Mirror of checkIfErrorCodeReturned of src/utils/errorHandling.ts,
before the catch: stringify error.error with fallback to error itself,
parse it back, read error_description with fallback to Message, then
extract the code. -/
def checkIfErrorCodeReturnedE (error : JsVal) : Except Unit (Option String) :=
  match getProp error "error" with
  | .error e => .error e
  | .ok inner =>
      let sel := if truthy inner then inner else error
      if stringifyDefined sel then
        match getProp (stripUndefined sel) "error_description" with
        | .error e => .error e
        | .ok d1 =>
            match getProp (stripUndefined sel) "Message" with
            | .error e => .error e
            | .ok d2 => extractCode (if truthy d1 then d1 else d2)
      else .ok none

/-- Mirror of checkIfErrorCodeReturned with its surrounding try-catch:
any thrown error yields null. -/
def checkIfErrorCodeReturned (error : JsVal) : Option String :=
  match checkIfErrorCodeReturnedE error with
  | .ok r => r
  | .error _ => none

/-- Mirror of checkIfErrorCodeReturnedFromGoogle of
src/utils/errorHandling.ts, before the catch: identical to the main
extractor but reading the error field with fallback to Message. -/
def checkIfErrorCodeReturnedFromGoogleE (error : JsVal) : Except Unit (Option String) :=
  match getProp error "error" with
  | .error e => .error e
  | .ok inner =>
      let sel := if truthy inner then inner else error
      if stringifyDefined sel then
        match getProp (stripUndefined sel) "error" with
        | .error e => .error e
        | .ok d1 =>
            match getProp (stripUndefined sel) "Message" with
            | .error e => .error e
            | .ok d2 => extractCode (if truthy d1 then d1 else d2)
      else .ok none

/-- Mirror of checkIfErrorCodeReturnedFromGoogle with its try-catch. -/
def checkIfErrorCodeReturnedFromGoogle (error : JsVal) : Option String :=
  match checkIfErrorCodeReturnedFromGoogleE error with
  | .ok r => r
  | .error _ => none

/-- Description phase of checkIfErrorCodeReturned, written separately
for the characterisation theorems: the extracted error_description or
Message value, when it is a usable nonempty string. -/
def descriptionOf (error : JsVal) : Option String :=
  match getProp error "error" with
  | .error _ => none
  | .ok inner =>
      let sel := if truthy inner then inner else error
      if stringifyDefined sel then
        match getProp (stripUndefined sel) "error_description" with
        | .error _ => none
        | .ok d1 =>
            match getProp (stripUndefined sel) "Message" with
            | .error _ => none
            | .ok d2 =>
                match (if truthy d1 then d1 else d2) with
                | .vStr s => if s != "" then some s else none
                | _ => none
      else none

/-- Description phase of checkIfErrorCodeReturnedFromGoogle. -/
def googleDescriptionOf (error : JsVal) : Option String :=
  match getProp error "error" with
  | .error _ => none
  | .ok inner =>
      let sel := if truthy inner then inner else error
      if stringifyDefined sel then
        match getProp (stripUndefined sel) "error" with
        | .error _ => none
        | .ok d1 =>
            match getProp (stripUndefined sel) "Message" with
            | .error _ => none
            | .ok d2 =>
                match (if truthy d1 then d1 else d2) with
                | .vStr s => if s != "" then some s else none
                | _ => none
      else none

/-- Acceptance applied to a description string: the before-pipe
substring, kept only when nonempty, longer than five characters, and
ZMAUT-prefixed. -/
def acceptedCodeOf (s : String) : Option String :=
  let error_code := jsSubstringTo s (jsIndexOf s '|')
  if error_code != "" && 5 < error_code.length && jsSubstringTo error_code 5 == "ZMAUT" then
    some error_code
  else none

end ZestAuth

namespace ZestAuth

/-! ## Theorems

String literals are expanded to their character lists so that mixed
literal and variable concatenations can be normalised by simp. -/

@[simp] theorem strData0 : ("isOtp:" : String).data = ['i', 's', 'O', 't', 'p', ':'] := rfl

@[simp] theorem strData1 : ("isOtp" : String).data = ['i', 's', 'O', 't', 'p'] := rfl

@[simp] theorem strData2 : (":" : String).data = [':'] := rfl

@[simp] theorem strData3 : ("&" : String).data = ['&'] := rfl

@[simp] theorem strData4 : ("true" : String).data = ['t', 'r', 'u', 'e'] := rfl

@[simp] theorem strData5 : ("false" : String).data = ['f', 'a', 'l', 's', 'e'] := rfl

@[simp] theorem strData6 : ("&isSignup:true&isLogin:false" : String).data = ['&', 'i', 's', 'S', 'i', 'g', 'n', 'u', 'p', ':', 't', 'r', 'u', 'e', '&', 'i', 's', 'L', 'o', 'g', 'i', 'n', ':', 'f', 'a', 'l', 's', 'e'] := rfl

@[simp] theorem strData7 : ("&isSignup:false&isLogin:true" : String).data = ['&', 'i', 's', 'S', 'i', 'g', 'n', 'u', 'p', ':', 'f', 'a', 'l', 's', 'e', '&', 'i', 's', 'L', 'o', 'g', 'i', 'n', ':', 't', 'r', 'u', 'e'] := rfl

@[simp] theorem strData8 : ("isSignup" : String).data = ['i', 's', 'S', 'i', 'g', 'n', 'u', 'p'] := rfl

@[simp] theorem strData9 : ("isLogin" : String).data = ['i', 's', 'L', 'o', 'g', 'i', 'n'] := rfl

@[simp] theorem strData10 : ("&isTruecaller:" : String).data = ['&', 'i', 's', 'T', 'r', 'u', 'e', 'c', 'a', 'l', 'l', 'e', 'r', ':'] := rfl

@[simp] theorem strData11 : ("isTruecaller" : String).data = ['i', 's', 'T', 'r', 'u', 'e', 'c', 'a', 'l', 'l', 'e', 'r'] := rfl

@[simp] theorem strData12 : ("&mobile:" : String).data = ['&', 'm', 'o', 'b', 'i', 'l', 'e', ':'] := rfl

@[simp] theorem strData13 : ("mobile" : String).data = ['m', 'o', 'b', 'i', 'l', 'e'] := rfl

@[simp] theorem strData14 : ("91" : String).data = ['9', '1'] := rfl

@[simp] theorem strData15 : ("&email:" : String).data = ['&', 'e', 'm', 'a', 'i', 'l', ':'] := rfl

@[simp] theorem strData16 : ("email" : String).data = ['e', 'm', 'a', 'i', 'l'] := rfl

@[simp] theorem strData17 : ("&loginContext:" : String).data = ['&', 'l', 'o', 'g', 'i', 'n', 'C', 'o', 'n', 't', 'e', 'x', 't', ':'] := rfl

@[simp] theorem strData18 : ("loginContext" : String).data = ['l', 'o', 'g', 'i', 'n', 'C', 'o', 'n', 't', 'e', 'x', 't'] := rfl

@[simp] theorem strData19 : ("&otpId:" : String).data = ['&', 'o', 't', 'p', 'I', 'd', ':'] := rfl

@[simp] theorem strData20 : ("otpId" : String).data = ['o', 't', 'p', 'I', 'd'] := rfl

@[simp] theorem strData21 : ("&loanApplicationId:" : String).data = ['&', 'l', 'o', 'a', 'n', 'A', 'p', 'p', 'l', 'i', 'c', 'a', 't', 'i', 'o', 'n', 'I', 'd', ':'] := rfl

@[simp] theorem strData22 : ("loanApplicationId" : String).data = ['l', 'o', 'a', 'n', 'A', 'p', 'p', 'l', 'i', 'c', 'a', 't', 'i', 'o', 'n', 'I', 'd'] := rfl

@[simp] theorem strData23 : ("&merchantId:" : String).data = ['&', 'm', 'e', 'r', 'c', 'h', 'a', 'n', 't', 'I', 'd', ':'] := rfl

@[simp] theorem strData24 : ("merchantId" : String).data = ['m', 'e', 'r', 'c', 'h', 'a', 'n', 't', 'I', 'd'] := rfl

@[simp] theorem strData25 : ("&encryptedMerchantId:" : String).data = ['&', 'e', 'n', 'c', 'r', 'y', 'p', 't', 'e', 'd', 'M', 'e', 'r', 'c', 'h', 'a', 'n', 't', 'I', 'd', ':'] := rfl

@[simp] theorem strData26 : ("encryptedMerchantId" : String).data = ['e', 'n', 'c', 'r', 'y', 'p', 't', 'e', 'd', 'M', 'e', 'r', 'c', 'h', 'a', 'n', 't', 'I', 'd'] := rfl

@[simp] theorem strData27 : ("&MerchantCustomerId:" : String).data = ['&', 'M', 'e', 'r', 'c', 'h', 'a', 'n', 't', 'C', 'u', 's', 't', 'o', 'm', 'e', 'r', 'I', 'd', ':'] := rfl

@[simp] theorem strData28 : ("MerchantCustomerId" : String).data = ['M', 'e', 'r', 'c', 'h', 'a', 'n', 't', 'C', 'u', 's', 't', 'o', 'm', 'e', 'r', 'I', 'd'] := rfl

@[simp] theorem strData29 : ("&version:" : String).data = ['&', 'v', 'e', 'r', 's', 'i', 'o', 'n', ':'] := rfl

@[simp] theorem strData30 : ("version" : String).data = ['v', 'e', 'r', 's', 'i', 'o', 'n'] := rfl

@[simp] theorem strData31 : ("&qType:" : String).data = ['&', 'q', 'T', 'y', 'p', 'e', ':'] := rfl

@[simp] theorem strData32 : ("qType" : String).data = ['q', 'T', 'y', 'p', 'e'] := rfl

@[simp] theorem strData33 : ("&qValue:" : String).data = ['&', 'q', 'V', 'a', 'l', 'u', 'e', ':'] := rfl

@[simp] theorem strData34 : ("qValue" : String).data = ['q', 'V', 'a', 'l', 'u', 'e'] := rfl

theorem acrAppend_nil (s : String) : acrAppend s [] = s := rfl

theorem acrAppend_single (s k v : String) :
    acrAppend s [(k, v)] = s ++ "&" ++ k ++ ":" ++ v := rfl

theorem acrAppend_pair (s k1 v1 k2 v2 : String) :
    acrAppend s [(k1, v1), (k2, v2)]
      = s ++ "&" ++ k1 ++ ":" ++ v1 ++ "&" ++ k2 ++ ":" ++ v2 := rfl

theorem acrAppend_append (s : String) (l1 l2 : List (String × String)) :
    acrAppend s (l1 ++ l2) = acrAppend (acrAppend s l1) l2 := by
  simp [acrAppend, List.foldl_append]

theorem intercalateGo_eq_acrAppend (l : List (String × String)) (acc : String) :
    String.intercalate.go acc "&" (l.map fun p => p.1 ++ ":" ++ p.2) = acrAppend acc l := by
  induction l generalizing acc with
  | nil => rfl
  | cons p l ih =>
      show String.intercalate.go (acc ++ "&" ++ (p.1 ++ ":" ++ p.2)) "&"
          (l.map fun p => p.1 ++ ":" ++ p.2)
        = acrAppend (acc ++ "&" ++ p.1 ++ ":" ++ p.2) l
      rw [show acc ++ "&" ++ (p.1 ++ ":" ++ p.2) = acc ++ "&" ++ p.1 ++ ":" ++ p.2 by
        simp [String.append_assoc]]
      exact ih _

theorem renderAcrFields_cons (p : String × String) (l : List (String × String)) :
    renderAcrFields (p :: l) = acrAppend (p.1 ++ ":" ++ p.2) l := by
  show String.intercalate "&" ((p :: l).map fun q => q.1 ++ ":" ++ q.2)
    = acrAppend (p.1 ++ ":" ++ p.2) l
  rw [List.map_cons, String.intercalate]
  exact intercalateGo_eq_acrAppend l _

theorem acrStage_signup (version : String) (isSignup : Bool) (s : String)
    (L : List (String × String)) :
    (if version ≠ "2" then
      if isSignup then acrAppend s L ++ "&isSignup:true&isLogin:false"
      else acrAppend s L ++ "&isSignup:false&isLogin:true"
    else acrAppend s L)
    = acrAppend s (L ++ if version ≠ "2" then
        if isSignup then [("isSignup", "true"), ("isLogin", "false")]
        else [("isSignup", "false"), ("isLogin", "true")]
      else []) := by
  by_cases hv : version = "2"
  · simp [hv]
  · cases isSignup <;>
      simp only [hv, if_true, if_false, Bool.false_eq_true, Bool.true_eq_false,
        ne_eq, not_false_iff, ite_true, ite_false, acrAppend_append, acrAppend_pair] <;>
      (apply String.ext; simp [String.data_append])

theorem acrStage_truecaller (b : String) (s : String) (L : List (String × String)) :
    acrAppend s L ++ "&isTruecaller:" ++ b
      = acrAppend s (L ++ [("isTruecaller", b)]) := by
  rw [acrAppend_append, acrAppend_single]
  apply String.ext; simp [String.data_append]

theorem acrStage_mobile (c : Prop) [Decidable c] (M : String) (s : String)
    (L : List (String × String)) :
    (if c then acrAppend s L ++ "&mobile:" ++ "91" ++ M else acrAppend s L)
      = acrAppend s (L ++ if c then [("mobile", "91" ++ M)] else []) := by
  by_cases hc : c
  · rw [if_pos hc, if_pos hc, acrAppend_append, acrAppend_single]
    apply String.ext; simp [String.data_append]
  · simp [hc]

theorem acrStage_email (c : Prop) [Decidable c] (E : String) (s : String)
    (L : List (String × String)) :
    (if c then acrAppend s L ++ "&email:" ++ E else acrAppend s L)
      = acrAppend s (L ++ if c then [("email", E)] else []) := by
  by_cases hc : c
  · rw [if_pos hc, if_pos hc, acrAppend_append, acrAppend_single]
    apply String.ext; simp [String.data_append]
  · simp [hc]

theorem acrStage_loginContext (c : Prop) [Decidable c] (v : String) (s : String)
    (L : List (String × String)) :
    (if c then acrAppend s L ++ "&loginContext:" ++ v else acrAppend s L)
      = acrAppend s (L ++ if c then [("loginContext", v)] else []) := by
  by_cases hc : c
  · rw [if_pos hc, if_pos hc, acrAppend_append, acrAppend_single]
    apply String.ext; simp [String.data_append]
  · simp [hc]

theorem acrStage_otpId (c : Prop) [Decidable c] (v : String) (s : String)
    (L : List (String × String)) :
    (if c then acrAppend s L ++ "&otpId:" ++ v else acrAppend s L)
      = acrAppend s (L ++ if c then [("otpId", v)] else []) := by
  by_cases hc : c
  · rw [if_pos hc, if_pos hc, acrAppend_append, acrAppend_single]
    apply String.ext; simp [String.data_append]
  · simp [hc]

theorem acrStage_loanApplicationId (c : Prop) [Decidable c] (v : String) (s : String)
    (L : List (String × String)) :
    (if c then acrAppend s L ++ "&loanApplicationId:" ++ v else acrAppend s L)
      = acrAppend s (L ++ if c then [("loanApplicationId", v)] else []) := by
  by_cases hc : c
  · rw [if_pos hc, if_pos hc, acrAppend_append, acrAppend_single]
    apply String.ext; simp [String.data_append]
  · simp [hc]

theorem acrStage_merchantId (c : Prop) [Decidable c] (v : String) (s : String)
    (L : List (String × String)) :
    (if c then acrAppend s L ++ "&merchantId:" ++ v else acrAppend s L)
      = acrAppend s (L ++ if c then [("merchantId", v)] else []) := by
  by_cases hc : c
  · rw [if_pos hc, if_pos hc, acrAppend_append, acrAppend_single]
    apply String.ext; simp [String.data_append]
  · simp [hc]

theorem acrStage_encryptedMerchantId (c : Prop) [Decidable c] (v : String) (s : String)
    (L : List (String × String)) :
    (if c then acrAppend s L ++ "&encryptedMerchantId:" ++ v else acrAppend s L)
      = acrAppend s (L ++ if c then [("encryptedMerchantId", v)] else []) := by
  by_cases hc : c
  · rw [if_pos hc, if_pos hc, acrAppend_append, acrAppend_single]
    apply String.ext; simp [String.data_append]
  · simp [hc]

theorem acrStage_merchantCustomerId (c : Prop) [Decidable c] (v : String) (s : String)
    (L : List (String × String)) :
    (if c then acrAppend s L ++ "&MerchantCustomerId:" ++ v else acrAppend s L)
      = acrAppend s (L ++ if c then [("MerchantCustomerId", v)] else []) := by
  by_cases hc : c
  · rw [if_pos hc, if_pos hc, acrAppend_append, acrAppend_single]
    apply String.ext; simp [String.data_append]
  · simp [hc]

theorem acrStage_version (c : Prop) [Decidable c] (v : String) (s : String)
    (L : List (String × String)) :
    (if c then acrAppend s L ++ "&version:" ++ v else acrAppend s L)
      = acrAppend s (L ++ if c then [("version", v)] else []) := by
  by_cases hc : c
  · rw [if_pos hc, if_pos hc, acrAppend_append, acrAppend_single]
    apply String.ext; simp [String.data_append]
  · simp [hc]

theorem acrStage_q (c : Prop) [Decidable c] (t v : String) (s : String)
    (L : List (String × String)) :
    (if c then acrAppend s L ++ "&qType:" ++ t ++ "&qValue:" ++ v else acrAppend s L)
      = acrAppend s (L ++ if c then [("qType", t), ("qValue", v)] else []) := by
  by_cases hc : c
  · rw [if_pos hc, if_pos hc, acrAppend_append, acrAppend_pair]
    apply String.ext; simp [String.data_append]
  · simp [hc]

/-- Central decomposition: the ACR string built by getAcrValues is the
rendering of its ordered field list. -/
theorem getAcrValues_eq_renderAcrFields (acrValues : AcrValues)
    (isOtp isSignup isTruecaller : Bool) (authentication : Authentication)
    (version : String) :
    getAcrValues acrValues isOtp isSignup isTruecaller authentication version
      = renderAcrFields (acrFields acrValues isOtp isSignup isTruecaller authentication version) := by
  rw [acrFields, renderAcrFields_cons]
  show (getAcrValues acrValues isOtp isSignup isTruecaller authentication version) = _
  rw [getAcrValues]
  rw [show ("isOtp:" ++ boolStr (if isTruecaller then false else isOtp)
      = acrAppend ("isOtp" ++ ":" ++ boolStr (if isTruecaller then false else isOtp)) []) by
    rw [acrAppend_nil]; apply String.ext; simp [String.data_append]]
  rw [acrStage_signup, acrStage_truecaller, acrStage_mobile, acrStage_email,
    acrStage_loginContext, acrStage_otpId, acrStage_loanApplicationId,
    acrStage_merchantId, acrStage_encryptedMerchantId, acrStage_merchantCustomerId,
    acrStage_version, acrStage_q]
  simp [List.append_assoc]

theorem acrAppend_left (s : String) (l : List (String × String)) :
    ∀ t : String, acrAppend (s ++ t) l = s ++ acrAppend t l := by
  induction l with
  | nil => intro t; rfl
  | cons p l ih =>
      intro t
      show acrAppend (s ++ t ++ "&" ++ p.1 ++ ":" ++ p.2) l
        = s ++ acrAppend (t ++ "&" ++ p.1 ++ ":" ++ p.2) l
      rw [show s ++ t ++ "&" ++ p.1 ++ ":" ++ p.2
          = s ++ (t ++ "&" ++ p.1 ++ ":" ++ p.2) by simp [String.append_assoc]]
      exact ih _

theorem string_ne_empty_iff (s : String) : s ≠ "" ↔ 0 < s.length := by
  constructor
  · intro h
    rcases s with ⟨data⟩
    cases data with
    | nil => exact absurd rfl h
    | cons c cs => simp [String.length]
  · intro h he
    subst he
    simp [String.length] at h

/-- C1. The ACR builder emits the appended fields in the order claimed by
the specification: isOtp; isSignup and isLogin when the version is not 2;
isThirdParty; mobile; email; otpId; then loanApplicationId, merchantId,
encryptedMerchantId, merchantCustomerId, loginContext; then version; then
the qType and qValue pair. Refuted: the source appends loginContext
between email and otpId, not after merchantCustomerId. At the concrete
input below (OTP mode with an otpId present and a nonzero loginContext)
the built string differs from the claimed order. -/
theorem acr_claimed_field_order_counterexample :
    getAcrValues ⟨"", "", "", "", 2, "", ""⟩ true false false
      { MobileNumber := "", OtpId := "o1" } "1"
    ≠ getAcrValuesSpecOrder ⟨"", "", "", "", 2, "", ""⟩ true false false
      { MobileNumber := "", OtpId := "o1" } "1" := by
  decide

/-- C1, amended. For every credential bundle and flag combination the ACR
builder emits exactly the ordered, gated field list of acrFields joined
by ampersands: isOtp first; isSignup and isLogin when the version is not
2; isTruecaller; mobile; email; loginContext when nonzero; otpId in OTP
mode when present; then loanApplicationId, merchantId,
encryptedMerchantId, MerchantCustomerId; version when the version is 2;
finally the qType and qValue pair when both are non-empty. -/
theorem acr_field_order (acrValues : AcrValues) (isOtp isSignup isTruecaller : Bool)
    (authentication : Authentication) (version : String) :
    getAcrValues acrValues isOtp isSignup isTruecaller authentication version
      = renderAcrFields (acrFields acrValues isOtp isSignup isTruecaller authentication version) :=
  getAcrValues_eq_renderAcrFields acrValues isOtp isSignup isTruecaller authentication version

/-- C2. In every built ACR string the mobile field appears exactly when
((OTP mode or third-party mode) and not signup, or signup) holds and a
non-empty phone number is present, and the email field appears exactly
when (neither OTP nor third-party nor signup, or signup) holds and a
non-empty email is present; a gated-out field never appears even when its
value is present in the bundle. -/
theorem acr_mobile_email_gating (acrValues : AcrValues)
    (isOtp isSignup isTruecaller : Bool) (authentication : Authentication)
    (version : String) :
    getAcrValues acrValues isOtp isSignup isTruecaller authentication version
      = renderAcrFields (acrFields acrValues isOtp isSignup isTruecaller authentication version)
    ∧ ("mobile" ∈ (acrFields acrValues isOtp isSignup isTruecaller authentication version).map Prod.fst
        ↔ ((((isOtp || isTruecaller) && !isSignup) || isSignup) = true
            ∧ authentication.MobileNumber ≠ ""))
    ∧ ("email" ∈ (acrFields acrValues isOtp isSignup isTruecaller authentication version).map Prod.fst
        ↔ (((!isOtp && !isTruecaller && !isSignup) || isSignup) = true
            ∧ authentication.Email ≠ "")) := by
  refine ⟨getAcrValues_eq_renderAcrFields _ _ _ _ _ _, ?_, ?_⟩
  · rw [string_ne_empty_iff]
    cases isOtp <;> cases isSignup <;> cases isTruecaller <;>
      simp [acrFields]
  · rw [string_ne_empty_iff]
    cases isOtp <;> cases isSignup <;> cases isTruecaller <;>
      simp [acrFields]

/-- C9. When the third-party (Truecaller) flag is set, the builder
coerces isOtp to false before assembling: the result always begins with
the text isOtp:false regardless of the isOtp argument, and the otpId
field is never part of the built field list. -/
theorem acr_truecaller_coercion (acrValues : AcrValues) (isOtp isSignup : Bool)
    (authentication : Authentication) (version : String) :
    (∃ rest, getAcrValues acrValues isOtp isSignup true authentication version
        = "isOtp:false" ++ rest)
    ∧ "otpId" ∉ (acrFields acrValues isOtp isSignup true authentication version).map Prod.fst := by
  constructor
  · refine ⟨acrAppend "" ((acrFields acrValues isOtp isSignup true authentication version).tail), ?_⟩
    rw [getAcrValues_eq_renderAcrFields]
    rw [show acrFields acrValues isOtp isSignup true authentication version
        = ("isOtp", "false")
          :: (acrFields acrValues isOtp isSignup true authentication version).tail by
      simp [acrFields, boolStr]]
    rw [renderAcrFields_cons]
    rw [show ("isOtp" ++ ":" ++ "false" : String) = "isOtp:false" ++ "" by
      apply String.ext; simp [String.data_append]]
    exact acrAppend_left _ _ ""
  · cases isOtp <;> cases isSignup <;> simp [acrFields]

/-- C4. The pending-session validity check returns false exactly when no
record is stored, the stored value fails to parse, or five minutes or
more have elapsed since issuedAt; it returns true exactly for a stored,
parseable record younger than five minutes. -/
theorem authSession_validity (stored : Option (Option AuthSessionRecord)) (now : Int) :
    (isValidAuthSessionStorage stored now = false ↔
      (stored = none ∨ stored = some none
        ∨ ∃ r, stored = some (some r) ∧ 60000 * 5 ≤ now - r.issuedAt))
    ∧ (isValidAuthSessionStorage stored now = true ↔
      ∃ r, stored = some (some r) ∧ now - r.issuedAt < 60000 * 5) := by
  match stored with
  | none => simp [isValidAuthSessionStorage]
  | some none => simp [isValidAuthSessionStorage]
  | some (some r) =>
      constructor
      · simp [isValidAuthSessionStorage]
      · simp [isValidAuthSessionStorage]

/-- C5. Saving the pending session record stamps issuedAt with the
current time, except that an explicit reuse request with an existing,
parseable stored record preserves the prior issuedAt; with a stored but
unparseable record the failure is swallowed and storage is unchanged.
The save function is total, so it never throws. -/
theorem authSession_save_stamping (stored : Option (Option AuthSessionRecord))
    (authentication : Authentication) (waOpted : Bool) (now : Int) (reuseIssuedAt : Bool) :
    ((reuseIssuedAt = false ∨ stored = none) →
      setAuthSessionStorage stored authentication waOpted now reuseIssuedAt
        = some (some { auth := authentication, waOpted := waOpted, issuedAt := now }))
    ∧ (∀ token, reuseIssuedAt = true → stored = some (some token) →
      setAuthSessionStorage stored authentication waOpted now reuseIssuedAt
        = some (some { auth := token.auth, waOpted := waOpted, issuedAt := token.issuedAt }))
    ∧ (reuseIssuedAt = true → stored = some none →
      setAuthSessionStorage stored authentication waOpted now reuseIssuedAt = stored) := by
  refine ⟨?_, ?_, ?_⟩
  · rintro (hr | hs)
    · subst hr
      cases stored with
      | none => rfl
      | some o => cases o <;> rfl
    · subst hs
      cases reuseIssuedAt <;> rfl
  · rintro token hr hs
    subst hr; subst hs
    rfl
  · rintro hr hs
    subst hr; subst hs
    rfl

/-- Witness for C5 at a concrete reuse save: the prior auth and issuedAt
of the stored record are kept and waOpted is refreshed. -/
theorem authSession_save_stamping_witness :
    setAuthSessionStorage
      (some (some ⟨{ MobileNumber := "9876543210" }, true, 111⟩))
      {} false 999 true
      = some (some ⟨{ MobileNumber := "9876543210" }, false, 111⟩) :=
  (authSession_save_stamping
    (some (some ⟨{ MobileNumber := "9876543210" }, true, 111⟩))
    {} false 999 true).2.1
    ⟨{ MobileNumber := "9876543210" }, true, 111⟩ rfl rfl

theorem composite_mobile_gate (s : String) :
    (regexTestMobileV3 s = true ∧ (s.length == 10 && jsMatchAllDigits s) = true)
      ↔ fullMobileMatch s = true := by
  rcases s with ⟨l⟩
  constructor
  · rintro ⟨hr, hg⟩
    simp only [Bool.and_eq_true, beq_iff_eq] at hg
    obtain ⟨hlen, hdig⟩ := hg
    have hlen10 : l.length = 10 := by simpa [String.length] using hlen
    have hdigall : ∀ x ∈ l, isDigitCh x = true := by
      simp only [jsMatchAllDigits, Bool.and_eq_true, List.all_eq_true] at hdig
      exact fun x hx => hdig.2 x hx
    simp only [regexTestMobileV3, List.any_eq_true] at hr
    obtain ⟨t, ht, hrun⟩ := hr
    rw [List.mem_tails] at ht
    rcases t with _ | ⟨c, rest⟩
    · simp [mobileRunAt] at hrun
    · simp only [mobileRunAt, Bool.and_eq_true, beq_iff_eq] at hrun
      obtain ⟨hc59, htake, _hall⟩ := hrun
      have hrest9 : 9 ≤ rest.length := by
        rw [List.length_take] at htake; omega
      have hle : l.length ≤ (c :: rest).length := by
        simp only [List.length_cons]; omega
      have hteq : c :: rest = l := ht.eq_of_length (le_antisymm ht.length_le hle)
      rw [← hteq] at hlen10 hdigall ⊢
      simp only [fullMobileMatch, Bool.and_eq_true, beq_iff_eq]
      refine ⟨hc59, ?_, ?_⟩
      · simp only [List.length_cons] at hlen10; omega
      · exact List.all_eq_true.2 fun x hx => hdigall x (List.mem_cons_of_mem c hx)
  · intro hf
    rcases l with _ | ⟨c, rest⟩
    · simp [fullMobileMatch] at hf
    · simp only [fullMobileMatch, Bool.and_eq_true, beq_iff_eq] at hf
      obtain ⟨hc59, hlen9, hall⟩ := hf
      have hdig : isDigitCh c = true := by
        simp only [Bool.and_eq_true, decide_eq_true_eq] at hc59
        simp only [isDigitCh, Bool.and_eq_true, decide_eq_true_eq]
        exact ⟨le_trans (by decide) hc59.1, hc59.2⟩
      have htk : rest.take 9 = rest := List.take_of_length_le (le_of_eq hlen9)
      refine ⟨?_, ?_⟩
      · simp only [regexTestMobileV3, List.any_eq_true]
        refine ⟨c :: rest, ?_, ?_⟩
        · rw [List.mem_tails]
        · simp only [mobileRunAt, Bool.and_eq_true, beq_iff_eq, htk]
          exact ⟨hc59, hlen9, hall⟩
      · simp only [Bool.and_eq_true, beq_iff_eq]
        refine ⟨by simp [String.length, hlen9], ?_⟩
        simp only [jsMatchAllDigits, Bool.and_eq_true]
        refine ⟨by simp, List.all_eq_true.2 ?_⟩
        rintro x hx
        rcases List.mem_cons.mp hx with h | h
        · rw [h]; exact hdig
        · exact (List.all_eq_true.mp hall) x h

/-- C3. The specification states the OTP request of the mobile-submit
transition is built via the ACR builder with isOtp true and isSignup
false. Refuted: at the valid number 9876543210 the issued trigger
request is the plain payload of triggerOtpViaSmsV2, whose only top-level
key is MobileNumber, prefixed with 91; no ACR string and no isOtp or
isSignup flag is part of it. -/
theorem mobileSubmit_no_acr_counterexample :
    mobileSubmit "9876543210" "" ""
      = (some { MobileNumber := "919876543210", params := .noParams }, .AwaitingOtp)
    ∧ triggerOtpRequestKeys { MobileNumber := "919876543210", params := .noParams }
      = ["MobileNumber"] := by
  constructor
  · decide
  · rfl

/-- C3, amended. From EnteringMobile, a submitted input triggers the OTP
trigger request (the plain mobile-number payload of triggerOtpViaSmsV2,
not an ACR-built request) and opens the OTP step exactly when the input
fully matches [5-9] followed by nine digits; any other submitted input
issues no request and leaves the flow in EnteringMobile. -/
theorem mobileSubmit_gating (entered merchantKey merchantId : String) :
    ((mobileSubmit entered merchantKey merchantId).1
      = if fullMobileMatch entered
        then some (triggerOtpViaSmsData { MobileNumber := entered } merchantKey merchantId)
        else none)
    ∧ ((mobileSubmit entered merchantKey merchantId).2
      = if fullMobileMatch entered then .AwaitingOtp else .EnteringMobile) := by
  have h := composite_mobile_gate entered
  by_cases hf : fullMobileMatch entered = true
  · obtain ⟨hr, hg⟩ := h.mpr hf
    simp [mobileSubmit, hr, hg, hf]
  · have hf' : fullMobileMatch entered = false := by
      cases hm : fullMobileMatch entered
      · rfl
      · exact absurd hm hf
    rw [iff_false_right (by simp [hf'])] at h
    push_neg at h
    by_cases hr : regexTestMobileV3 entered = true
    · have hg := h hr
      have hg' : (entered.length == 10 && jsMatchAllDigits entered) = false := by
        cases hm : (entered.length == 10 && jsMatchAllDigits entered)
        · rfl
        · exact absurd hm hg
      simp [mobileSubmit, hr, hg', hf']
    · have hr' : regexTestMobileV3 entered = false := by
        cases hm : regexTestMobileV3 entered
        · rfl
        · exact absurd hm hr
      simp [mobileSubmit, hr', hf']

theorem otpIncorrectStep_iterate (s : Option String) :
    ∀ k, 1 ≤ k →
      otpIncorrectStep^[k] ⟨true, 0, false, "", false, s⟩
        = ⟨true, k, true,
            (if k ≤ 3 then msgIncorrectOtpV2 else msgIncorrectOtpAfterRetries), false, s⟩ := by
  intro k
  induction k with
  | zero => intro h; omega
  | succ n ih =>
      intro _
      rcases Nat.eq_zero_or_pos n with hn | hn
      · subst hn
        simp [Function.iterate_one, otpIncorrectStep]
      · rw [Function.iterate_succ_apply', ih hn]
        simp only [otpIncorrectStep]
        by_cases h3 : n ≥ 3
        · have hn4 : ¬ (n + 1 ≤ 3) := by omega
          simp [h3, hn4]
        · have hn3 : n ≤ 3 := by omega
          have hs : n + 1 ≤ 3 := by omega
          simp [h3, hn3, hs]

/-- C8. In AwaitingOtp, consecutive OTP-incorrect (ZMAUT02) failures
increment the local attempt counter, never touch the stored session
value, and keep the OTP form open; attempts one to three show the
contracts message and every attempt from the fourth on shows the
different please-retry text. -/
theorem otp_retry_messages (s : Option String) (k : Nat) (hk : 1 ≤ k) :
    (otpIncorrectStep^[k] ⟨true, 0, false, "", false, s⟩).showOtpForm = true
    ∧ (otpIncorrectStep^[k] ⟨true, 0, false, "", false, s⟩).retryOtpAttemts = k
    ∧ (otpIncorrectStep^[k] ⟨true, 0, false, "", false, s⟩).sessionStorageValue = s
    ∧ (otpIncorrectStep^[k] ⟨true, 0, false, "", false, s⟩).errorMessage
        = (if k ≤ 3 then msgIncorrectOtpV2 else msgIncorrectOtpAfterRetries)
    ∧ msgIncorrectOtpAfterRetries ≠ msgIncorrectOtpV2 := by
  rw [otpIncorrectStep_iterate s k hk]
  refine ⟨rfl, rfl, rfl, rfl, by decide⟩

/-- Witness for C8 at the fourth consecutive failure, with the first
failure shown for contrast: the two user-facing messages differ. -/
theorem otp_retry_messages_witness :
    (otpIncorrectStep^[4] ⟨true, 0, false, "", false, none⟩).errorMessage
      = msgIncorrectOtpAfterRetries
    ∧ (otpIncorrectStep^[1] ⟨true, 0, false, "", false, none⟩).errorMessage
      = msgIncorrectOtpV2
    ∧ msgIncorrectOtpAfterRetries ≠ msgIncorrectOtpV2 := by
  have h4 := otp_retry_messages none 4 (by omega)
  have h1 := otp_retry_messages none 1 (by omega)
  refine ⟨?_, ?_, h4.2.2.2.2⟩
  · rw [h4.2.2.2.1]; rfl
  · rw [h1.2.2.2.1]; rfl

theorem lookup_delAssoc_self {α : Type} (l : List (String × α)) (k : String) :
    (delAssoc l k).lookup k = none := by
  induction l with
  | nil => rfl
  | cons p rest ih =>
      by_cases hp : p.1 = k
      · have hb : (p.1 != k) = false := by simp [hp]
        simp only [delAssoc, List.filter_cons, hb] at ih ⊢
        simpa using ih
      · have hb : (p.1 != k) = true := by simp [hp]
        have hk : (k == p.1) = false := by
          simp only [beq_eq_false_iff_ne, ne_eq]
          exact fun h => hp h.symm
        simp only [delAssoc, List.filter_cons, hb] at ih ⊢
        simpa [List.lookup, hk] using ih

theorem lookup_setAssoc_self {α : Type} (l : List (String × α)) (k : String) (v : α) :
    (setAssoc l k v).lookup k = some v := by
  induction l with
  | nil => simp [setAssoc, List.lookup]
  | cons p rest ih =>
      by_cases hp : p.1 = k
      · have hb : (p.1 == k) = true := by simp [hp]
        simp [setAssoc, hb, List.lookup]
      · have hb : (p.1 == k) = false := by simp [hp]
        have hk : (k == p.1) = false := by
          simp only [beq_eq_false_iff_ne, ne_eq]
          exact fun h => hp h.symm
        simp only [setAssoc, hb, Bool.false_eq_true, if_false]
        simpa [List.lookup, hk] using ih

/-- C7. Once the circuit breaker for a code holds five or more failures
whose last one is less than sixty seconds old, recover for that code
throws the breaker-open error at once, with no delay and no state
change; once sixty seconds have elapsed since the last failure the
breaker entry is deleted during the check, so the call ends with either
no entry or, when the retry budget was already exhausted and a failure
is recorded, a fresh entry counting failure number one. -/
theorem recover_circuit_breaker (st : ErrorHandlingState) (error : AuthError)
    (sessionId : Option String) (now : Int) (breaker : CircuitBreakerEntry)
    (hc : canRecover error = true)
    (hb : st.circuitBreakers.lookup error.code = some breaker) :
    ((breaker.failures ≥ 5 ∧ now - breaker.lastFailure < 60000) →
      recoverFromError st error sessionId now
        = (.thrown (createError "CIRCUIT_BREAKER_OPEN"
            "Service is temporarily unavailable due to repeated failures" false .SYSTEM), st))
    ∧ (now - breaker.lastFailure ≥ 60000 →
      (recoverFromError st error sessionId now).2.circuitBreakers.lookup error.code
        = (if (st.retryAttempts.lookup (error.code ++ "_" ++ sessionId.getD "default")).getD 0
              ≥ (getRetryConfig error.code).maxRetries
           then some ⟨1, now, false⟩ else none)) := by
  constructor
  · rintro ⟨h5, hfresh⟩
    rw [recoverFromError]
    rw [if_neg (by simp [hc])]
    rw [show isCircuitBreakerOpen st error.code now = (true, st) by
      rw [isCircuitBreakerOpen, hb]
      simp only []
      rw [if_pos ⟨h5, hfresh⟩]]
  · intro hstale
    have hnotopen : ¬ (breaker.failures ≥ 5 ∧ now - breaker.lastFailure < 60000) := by
      rintro ⟨_, hlt⟩; omega
    have hbk : isCircuitBreakerOpen st error.code now
        = (false, { st with circuitBreakers := delAssoc st.circuitBreakers error.code }) := by
      rw [isCircuitBreakerOpen, hb]
      simp only []
      rw [if_neg hnotopen, if_pos hstale]
    rw [recoverFromError, if_neg (by simp [hc]), hbk]
    simp only []
    by_cases hmax : (st.retryAttempts.lookup (error.code ++ "_" ++ sessionId.getD "default")).getD 0
        ≥ (getRetryConfig error.code).maxRetries
    · rw [if_pos hmax, if_pos hmax]
      simp only [recordCircuitBreakerFailure]
      rw [lookup_delAssoc_self]
      simp only [Option.getD]
      exact lookup_setAssoc_self _ _ _
    · rw [if_neg hmax, if_neg hmax]
      exact lookup_delAssoc_self _ _

/-- Witness for C7: an open breaker with five failures at time zero
makes recover throw at once at time 1000 with the state untouched, while
at time 70000 the check deletes the entry and, with an unused retry
budget, the call leaves no breaker entry behind. -/
theorem recover_circuit_breaker_witness :
    recoverFromError ⟨[], [("NET_001", ⟨5, 0, true⟩)]⟩
      { code := "NET_001", message := "m" } none 1000
      = (.thrown (createError "CIRCUIT_BREAKER_OPEN"
          "Service is temporarily unavailable due to repeated failures" false .SYSTEM),
         ⟨[], [("NET_001", ⟨5, 0, true⟩)]⟩)
    ∧ (recoverFromError ⟨[], [("NET_001", ⟨5, 0, true⟩)]⟩
        { code := "NET_001", message := "m" } none 70000).2.circuitBreakers.lookup "NET_001"
      = none := by
  constructor
  · exact (recover_circuit_breaker ⟨[], [("NET_001", ⟨5, 0, true⟩)]⟩
      { code := "NET_001", message := "m" } none 1000 ⟨5, 0, true⟩
      (by decide) (by decide)).1 ⟨by decide, by decide⟩
  · have h := (recover_circuit_breaker ⟨[], [("NET_001", ⟨5, 0, true⟩)]⟩
      { code := "NET_001", message := "m" } none 70000 ⟨5, 0, true⟩
      (by decide) (by decide)).2 (by decide)
    rw [h]
    decide

theorem extractCode_catch (d : JsVal) :
    (match extractCode d with | .ok r => r | .error _ => none)
      = (match d with
         | .vStr s => if s != "" then acceptedCodeOf s else none
         | _ => none) := by
  cases d with
  | vNull => rfl
  | vUndefined => rfl
  | vBool b => cases b <;> rfl
  | vNum n =>
      simp only [extractCode, truthy, descLengthPositive, Bool.and_false]
      rfl
  | vStr s =>
      by_cases hs : s = ""
      · subst hs; rfl
      · have ht : (s != "") = true := by simp [hs]
        have hl : decide (0 < s.length) = true := by
          simp only [decide_eq_true_eq]
          exact (string_ne_empty_iff s).mp hs
        simp [extractCode, truthy, descLengthPositive, ht, hl, acceptedCodeOf]
  | vObj fields =>
      simp only [extractCode, truthy, descLengthPositive]
      rcases hl : (fields.lookup "length") with _ | lv
      · rfl
      · cases lv <;> try rfl
        case vNum n =>
          by_cases hn : (0 : Int) < n
          · simp [hn]
          · simp [hn]

theorem catch_extract_eq_bind (parsed : JsVal) (f1 f2 : String) :
    (match (match getProp parsed f1 with
            | .error e => (.error e : Except Unit (Option String))
            | .ok d1 =>
                match getProp parsed f2 with
                | .error e => .error e
                | .ok d2 => extractCode (if truthy d1 then d1 else d2)) with
     | .ok r => r
     | .error _ => none)
      = (match getProp parsed f1 with
         | .error _ => none
         | .ok d1 =>
             match getProp parsed f2 with
             | .error _ => none
             | .ok d2 =>
                 match (if truthy d1 then d1 else d2) with
                 | .vStr s => if s != "" then some s else none
                 | _ => none).bind acceptedCodeOf := by
  cases h1 : getProp parsed f1 with
  | error e => rfl
  | ok d1 =>
      cases h2 : getProp parsed f2 with
      | error e => rfl
      | ok d2 =>
          show (match extractCode (if truthy d1 then d1 else d2) with
                | .ok r => r
                | .error _ => none)
            = (match (if truthy d1 then d1 else d2) with
               | .vStr s => if s != "" then some s else none
               | _ => none).bind acceptedCodeOf
          rw [extractCode_catch]
          cases hd : (if truthy d1 then d1 else d2) with
          | vStr s =>
              by_cases hs : s = ""
              · subst hs; simp
              · have ht : (s != "") = true := by simp [hs]
                simp [ht]
          | vNull => rfl
          | vUndefined => rfl
          | vBool b => rfl
          | vNum n => rfl
          | vObj fields => rfl

/-- C6. The error-code extractor never throws; it returns a code exactly
when the extracted error_description or Message (or, on the third-party
path, the error field) yields a before-pipe substring that passes the
five-character ZMAUT prefix check. Refuted on the length side: for the
description ZMAUT followed by a pipe, the before-pipe substring ZMAUT
passes the five-character prefix check, yet the extractor returns null,
because the source additionally requires the code to be strictly longer
than five characters. -/
theorem errorExtractor_prefix_counterexample :
    checkIfErrorCodeReturned (.vObj [("error_description", .vStr "ZMAUT|x")]) = none
    ∧ jsSubstringTo "ZMAUT|x" (jsIndexOf "ZMAUT|x" '|') = "ZMAUT"
    ∧ jsSubstringTo "ZMAUT" 5 = "ZMAUT" := by
  refine ⟨?_, by decide, by decide⟩
  rfl

/-- C6, amended. Both extractors are total functions into an optional
code, and each returns a code exactly when its description phase yields
a string whose before-pipe substring is nonempty, strictly longer than
five characters, and ZMAUT-prefixed; in every other case, including
thrown-and-caught accesses, the result is null. -/
theorem errorExtractor_characterisation (error : JsVal) :
    checkIfErrorCodeReturned error = (descriptionOf error).bind acceptedCodeOf
    ∧ checkIfErrorCodeReturnedFromGoogle error = (googleDescriptionOf error).bind acceptedCodeOf := by
  constructor
  · rw [checkIfErrorCodeReturned, checkIfErrorCodeReturnedE, descriptionOf]
    cases hg : getProp error "error" with
    | error e => rfl
    | ok inner =>
        simp only []
        by_cases hs : stringifyDefined (if truthy inner then inner else error) = true
        · rw [if_pos hs, if_pos hs]
          exact catch_extract_eq_bind _ "error_description" "Message"
        · rw [if_neg hs, if_neg hs]
          rfl
  · rw [checkIfErrorCodeReturnedFromGoogle, checkIfErrorCodeReturnedFromGoogleE,
      googleDescriptionOf]
    cases hg : getProp error "error" with
    | error e => rfl
    | ok inner =>
        simp only []
        by_cases hs : stringifyDefined (if truthy inner then inner else error) = true
        · rw [if_pos hs, if_pos hs]
          exact catch_extract_eq_bind _ "error" "Message"
        · rw [if_neg hs, if_neg hs]
          rfl

theorem charIdx_eq_none_of_not_mem (l : List Char) (c : Char) (h : c ∉ l) :
    charIdx l c = none := by
  induction l with
  | nil => rfl
  | cons d rest ih =>
      rw [charIdx]
      rw [if_neg (by rintro rfl; exact h (List.mem_cons_self d rest))]
      rw [ih (fun hm => h (List.mem_cons_of_mem d hm))]
      rfl

/-- C10. When the raw error's description is a ZMAUT-prefixed string
with no pipe delimiter anywhere in it, the extractor returns null: the
code is the substring before the first pipe, and an absent delimiter
makes that substring empty, so it fails the acceptance check even though
the description itself is a domain code. -/
theorem noPipe_zmaut_description_yields_null (s : String)
    (hpre : jsSubstringTo s 5 = "ZMAUT") (hnp : '|' ∉ s.data) :
    checkIfErrorCodeReturned (.vObj [("error_description", .vStr s)]) = none := by
  have hs : s ≠ "" := by
    rintro rfl
    simp [jsSubstringTo] at hpre
  have ht : (s != "") = true := by simp [hs]
  have hidx : jsIndexOf s '|' = -1 := by
    rw [jsIndexOf, charIdx_eq_none_of_not_mem s.data '|' hnp]
  rw [checkIfErrorCodeReturned, checkIfErrorCodeReturnedE]
  rw [show getProp (.vObj [("error_description", .vStr s)]) "error" = .ok .vUndefined from rfl]
  simp only [truthy, stringifyDefined, if_false, if_true, Bool.false_eq_true]
  rw [show stripUndefined (.vObj [("error_description", .vStr s)])
      = .vObj [("error_description", .vStr s)] from rfl]
  rw [show getProp (.vObj [("error_description", .vStr s)]) "error_description"
      = .ok (.vStr s) from rfl]
  rw [show getProp (.vObj [("error_description", .vStr s)]) "Message"
      = .ok .vUndefined from rfl]
  simp only [truthy, ht, if_true]
  rw [extractCode]
  simp only [truthy, descLengthPositive, ht, Bool.true_and]
  rw [if_pos (by
    simp only [decide_eq_true_eq]
    exact (string_ne_empty_iff s).mp hs)]
  rw [hidx]
  rw [show jsSubstringTo s (-1) = "" by simp [jsSubstringTo]]
  rfl

/-- Witness for C10 at the concrete domain code ZMAUT02 with no pipe. -/
theorem noPipe_zmaut_description_yields_null_witness :
    checkIfErrorCodeReturned (.vObj [("error_description", .vStr "ZMAUT02")]) = none :=
  noPipe_zmaut_description_yields_null "ZMAUT02" (by decide) (by decide)

end ZestAuth
